import Mathlib

/-!
Shallow embedding of the `sentry-integration` crate (`src/lib.rs`) of the
hook0 repository, together with theorems checking its natural-language
specification.  Pure values (log levels, routing decisions, Sentry JSON
values) become inductive types; the stateful parts (the Sentry scope user,
the side effects of `init` and of the dual-sink error reporter) become
explicit records of effects returned by Lean functions that mirror the
Rust control flow.
-/

namespace SentryIntegration

/-- The `log::Level` enumeration used by the crate (ordered Trace..Error). -/
inductive Level where
  | Trace
  | Debug
  | Info
  | Warn
  | Error
deriving DecidableEq, Repr

/-- `sentry::integrations::log::LogFilter`: routing decision for a log line. -/
inductive LogFilter where
  | Event
  | Breadcrumb
  | Ignore
deriving DecidableEq, Repr

/-- `sentry::protocol::Value` restricted to the variants relevant here:
the code only ever builds `Value::String`, and `null` exists in the type so
that "never inserted as null" is statable. -/
inductive Value where
  | str : String → Value
  | null : Value
deriving DecidableEq, Repr

/-- The filter closure installed by `init_sentry_logger` (src/lib.rs lines
19–28), translated arm by arm from the Rust `match` on
`(md.target(), md.level())`:
`(_, Error) => Event`; `(target, _) if target == crate_name => Breadcrumb`;
`(_, Warn) | (_, Info) => Breadcrumb`; `(_, Debug) | (_, Trace) => Ignore`. -/
def classify (crate_name : String) (target : String) (level : Level) : LogFilter :=
  if level = Level.Error then LogFilter.Event
  else if target = crate_name then LogFilter.Breadcrumb
  else
    match level with
    | Level.Error => LogFilter.Event
    | Level.Warn | Level.Info => LogFilter.Breadcrumb
    | Level.Debug | Level.Trace => LogFilter.Ignore

/-- `mk_log_builder` (src/lib.rs lines 12–14): the effective minimum-level
filter of the env_logger builder, as a function of the environment's
override (`env_logger::Env::default().default_filter_or("info")`). -/
def mk_log_builder (env_filter : Option String) : String :=
  env_filter.getD "info"

/-- The logger built by `init_sentry_logger` (src/lib.rs lines 17–32): an
env_logger destination at the default filter, plus the routing filter
closed over `crate_name`. -/
structure SentryLoggerModel where
  dest_default_filter : String
  filter : String → Level → LogFilter

/-- `init_sentry_logger` (src/lib.rs lines 17–32), as the logger it
installs. -/
def init_sentry_logger (crate_name : String) : SentryLoggerModel :=
  { dest_default_filter := mk_log_builder none
    filter := classify crate_name }

/-- `sentry::ClientOptions` fields set by `init` (src/lib.rs lines 47–53).
The sample rate is an `f32` in Rust, but the only operation performed on it
is `Option::unwrap_or(0.0)`, so it is modelled exactly as a rational. -/
structure ClientOptions where
  send_default_pii : Bool
  attach_stacktrace : Bool
  debug : Bool
  traces_sample_rate : Rat
deriving DecidableEq, Repr

/-- Observable side effects of `init` (src/lib.rs lines 35–70). -/
structure InitEffects where
  /-- `some crate_name` when `init_sentry_logger(crate_name)` ran. -/
  sentry_logger_installed : Option String
  /-- whether the plain `mk_log_builder().init()` local logger ran. -/
  env_logger_installed : Bool
  /-- `some (dsn, options)` when `sentry::init` was called. -/
  sentry_inited : Option (String × ClientOptions)
  info_logs : List String
  warn_logs : List String
deriving DecidableEq, Repr

/-- Outcome of `init`: either a normal return carrying the
`Option<ClientInitGuard>` (the guard is the initialized client, modelled by
its dsn and options), or the `unreachable!()` panic on line 59. -/
inductive InitResult where
  | ok (guard : Option (String × ClientOptions)) (effects : InitEffects)
  | panicUnreachable (effects : InitEffects)
deriving DecidableEq, Repr

/-- `init` (src/lib.rs lines 35–70).  `is_enabled` stands for the value
`client.is_enabled()` reported by the constructed Sentry client, an input
of the external SDK. -/
def init (crate_name : String) (sentry_dsn : Option String)
    (traces_sample_rate : Option Rat) (is_enabled : Bool) : InitResult :=
  match sentry_dsn with
  | some dsn =>
      let options : ClientOptions :=
        { send_default_pii := true
          attach_stacktrace := true
          debug := true
          traces_sample_rate := traces_sample_rate.getD 0 }
      let effects : InitEffects :=
        { sentry_logger_installed := some crate_name
          env_logger_installed := false
          sentry_inited := some (dsn, options)
          info_logs := []
          warn_logs := [] }
      if is_enabled then
        InitResult.ok (some (dsn, options))
          { effects with info_logs := ["Sentry integration initialized"] }
      else
        InitResult.panicUnreachable effects
  | none =>
      InitResult.ok none
        { sentry_logger_installed := none
          env_logger_installed := true
          sentry_inited := none
          info_logs := []
          warn_logs := ["Could not initialize Sentry integration"] }

/-- `sentry::User` restricted to the fields the crate sets: `id` and the
`other` map (built from a single-entry iterator). -/
structure User where
  id : Option String
  other : List (String × Value)
deriving DecidableEq, Repr

/-- The per-scope state touched by the identity setters: the current user. -/
structure Scope where
  user : Option User
deriving DecidableEq, Repr

/-- `AUTH_TYPE_PROPERTY` (src/lib.rs line 72). -/
def AUTH_TYPE_PROPERTY : String := "auth_type"

/-- `set_user_from_jwt` (src/lib.rs lines 75–86) as a scope transformer. -/
def set_user_from_jwt (id : String) (s : Scope) : Scope :=
  { s with user := some { id := some id
                          other := [(AUTH_TYPE_PROPERTY, Value.str "jwt")] } }

/-- `set_user_from_application_secret` (src/lib.rs lines 89–100). -/
def set_user_from_application_secret (application_id : String) (s : Scope) : Scope :=
  { s with user := some { id := some application_id
                          other := [(AUTH_TYPE_PROPERTY, Value.str "application_secret")] } }

/-- `set_user_from_token` (src/lib.rs lines 103–114). -/
def set_user_from_token (token_id : String) (s : Scope) : Scope :=
  { s with user := some { id := some token_id
                          other := [(AUTH_TYPE_PROPERTY, Value.str "token")] } }

/-- One call to any of the three identity setters. -/
inductive IdentityCall where
  | jwt (id : String)
  | appSecret (id : String)
  | token (id : String)
deriving DecidableEq, Repr

/-- Run one identity-setting call on a scope. -/
def applyCall (c : IdentityCall) (s : Scope) : Scope :=
  match c with
  | IdentityCall.jwt id => set_user_from_jwt id s
  | IdentityCall.appSecret id => set_user_from_application_secret id s
  | IdentityCall.token id => set_user_from_token id s

/-- Run a sequence of identity-setting calls, first call first. -/
def applyCalls (cs : List IdentityCall) (s : Scope) : Scope :=
  cs.foldl (fun acc c => applyCall c acc) s

/-- One local log record as built by the `log::Record::builder()` call in
`_log_object_storage_error_with_context` (src/lib.rs lines 151–160). -/
structure LocalRecord where
  msg : String
  level : Level
  target : String
  module_path : Option String
  file : Option String
  line : Option Nat
deriving DecidableEq, Repr

/-- Observable side effects of one `_log_object_storage_error_with_context`
call: the extras set on the transient `with_scope` scope (in insertion
order), the events captured inside that scope, and the local records. -/
structure ReportEffects where
  scope_extras : List (String × Value)
  events : List (String × Level)
  local_records : List LocalRecord
deriving DecidableEq, Repr

/-- `_log_object_storage_error_with_context` (src/lib.rs lines 118–161),
translated statement by statement: the `with_scope` mutator sets
`error_chain`, then `object_key` if present, then `prefix` if present, and
the body captures `static_msg` at `Level::Error`; the local detail line is
built from `detail_parts` joined by ", " and logged at `Warn` with the
caller-supplied target/module_path/file/line. -/
def log_object_storage_error_with_context (module_path : String) (file : String)
    (line : Nat) (static_msg : String) (error_chain : String)
    (object_key : Option String) (pfx : Option String) : ReportEffects :=
  let extras : List (String × Value) :=
    [("error_chain", Value.str error_chain)]
      ++ (match object_key with
          | some key => [("object_key", Value.str key)]
          | none => [])
      ++ (match pfx with
          | some p => [("prefix", Value.str p)]
          | none => [])
  let detail_parts : List String :=
    (match object_key with
     | some key => ["object_key=" ++ key]
     | none => [])
      ++ (match pfx with
          | some p => ["prefix=" ++ p]
          | none => [])
      ++ ["error_chain=" ++ error_chain]
  let detail : String := static_msg ++ " [" ++ String.intercalate ", " detail_parts ++ "]"
  { scope_extras := extras
    events := [(static_msg, Level.Error)]
    local_records := [{ msg := detail
                        level := Level.Warn
                        target := module_path
                        module_path := some module_path
                        file := some file
                        line := some line }] }

/-- The local detail line as the specification words it: `m ++ " ["`,
then `object_key=<key>` if present, then `prefix=<pfx>` if present, then
always `error_chain=<e>` last, the parts joined by ", ", then `"]"`.
Written from the spec to compare against the code's line. -/
def detail_line_spec (static_msg : String) (error_chain : String)
    (object_key : Option String) (pfx : Option String) : String :=
  let parts : List String :=
    object_key.elim [] (fun k => ["object_key=" ++ k])
      ++ pfx.elim [] (fun p => ["prefix=" ++ p])
      ++ ["error_chain=" ++ error_chain]
  static_msg ++ " [" ++ String.intercalate ", " parts ++ "]"

/-- C1: the Severity Router classifies every (origin, severity) pair by
first-match precedence: Error yields Event regardless of origin; otherwise
origin = home_origin yields Breadcrumb regardless of severity; otherwise
Warn/Info yield Breadcrumb; otherwise Debug/Trace yield Ignore; and the
function is total (always one of the three decisions). -/
theorem severity_router_precedence (crate_name target : String) (level : Level) :
    (level = Level.Error → classify crate_name target level = LogFilter.Event) ∧
    (level ≠ Level.Error → target = crate_name →
      classify crate_name target level = LogFilter.Breadcrumb) ∧
    (target ≠ crate_name → (level = Level.Warn ∨ level = Level.Info) →
      classify crate_name target level = LogFilter.Breadcrumb) ∧
    (target ≠ crate_name → (level = Level.Debug ∨ level = Level.Trace) →
      classify crate_name target level = LogFilter.Ignore) ∧
    (classify crate_name target level = LogFilter.Event ∨
      classify crate_name target level = LogFilter.Breadcrumb ∨
      classify crate_name target level = LogFilter.Ignore) := by
  cases level <;> by_cases h : target = crate_name <;> simp [classify, h]

/-- Concrete instances of the Severity Router precedence theorem. -/
theorem severity_router_precedence_witness :
    classify "hook0" "hook0" Level.Error = LogFilter.Event ∧
    classify "hook0" "hook0" Level.Debug = LogFilter.Breadcrumb ∧
    classify "hook0" "other" Level.Info = LogFilter.Breadcrumb ∧
    classify "hook0" "other" Level.Trace = LogFilter.Ignore :=
  ⟨(severity_router_precedence "hook0" "hook0" Level.Error).1 rfl,
   (severity_router_precedence "hook0" "hook0" Level.Debug).2.1 (by decide) rfl,
   (severity_router_precedence "hook0" "other" Level.Info).2.2.1 (by decide) (Or.inr rfl),
   (severity_router_precedence "hook0" "other" Level.Trace).2.2.2.1 (by decide) (Or.inr rfl)⟩

/-- C2: the local detail line of `report_error` is exactly the
specification's format (msg, open bracket, object_key if present, prefix if
present, error_chain always last, joined by ", ", close bracket), emitted
at Warn severity and tagged with the caller-supplied module, file and line;
with both optional attributes and with none, the spec's example lines come
out verbatim. -/
theorem report_error_local_line (mp f : String) (ln : Nat) (m e : String)
    (object_key pfx : Option String) :
    (log_object_storage_error_with_context mp f ln m e object_key pfx).local_records
        = [{ msg := detail_line_spec m e object_key pfx
             level := Level.Warn
             target := mp
             module_path := some mp
             file := some f
             line := some ln }] ∧
    (log_object_storage_error_with_context mp f ln "disk full" "io: ENOSPC"
        (some "k1") (some "p/")).local_records.map LocalRecord.msg
      = ["disk full [object_key=k1, prefix=p/, error_chain=io: ENOSPC]"] ∧
    (log_object_storage_error_with_context mp f ln "disk full" "io: ENOSPC"
        none none).local_records.map LocalRecord.msg
      = ["disk full [error_chain=io: ENOSPC]"] := by
  refine ⟨?_, rfl, rfl⟩
  cases object_key <;> cases pfx <;> rfl

/-- C3: every `report_error` call submits exactly one Error-severity event
whose message is exactly the static message, inside a transient scope whose
extras contain each present optional attribute as a string-valued field and
omit absent ones entirely (no entry at all under that key, in particular
never a null placeholder). -/
theorem report_error_remote_event (mp f : String) (ln : Nat) (m e : String)
    (object_key pfx : Option String) :
    (log_object_storage_error_with_context mp f ln m e object_key pfx).events
        = [(m, Level.Error)] ∧
    (∀ k, ("object_key", Value.str k)
        ∈ (log_object_storage_error_with_context mp f ln m e object_key pfx).scope_extras
      ↔ object_key = some k) ∧
    (∀ p, ("prefix", Value.str p)
        ∈ (log_object_storage_error_with_context mp f ln m e object_key pfx).scope_extras
      ↔ pfx = some p) ∧
    (object_key = none → ∀ v, ("object_key", v)
        ∉ (log_object_storage_error_with_context mp f ln m e object_key pfx).scope_extras) ∧
    (pfx = none → ∀ v, ("prefix", v)
        ∉ (log_object_storage_error_with_context mp f ln m e object_key pfx).scope_extras) ∧
    (∀ k v, (k, v) ∈ (log_object_storage_error_with_context mp f ln m e object_key pfx).scope_extras
      → v ≠ Value.null) := by
  cases object_key <;> cases pfx <;>
    simp +decide [log_object_storage_error_with_context] <;>
    aesop

/-- Concrete instance of the remote-event theorem: with both attributes
present, each is in the transient scope, and the single event carries the
static message at Error severity. -/
theorem report_error_remote_event_witness :
    (log_object_storage_error_with_context "m" "f" 1 "disk full" "io: ENOSPC"
        (some "k1") (some "p/")).events = [("disk full", Level.Error)] ∧
    ("object_key", Value.str "k1")
      ∈ (log_object_storage_error_with_context "m" "f" 1 "disk full" "io: ENOSPC"
          (some "k1") (some "p/")).scope_extras :=
  ⟨(report_error_remote_event "m" "f" 1 "disk full" "io: ENOSPC" (some "k1") (some "p/")).1,
   ((report_error_remote_event "m" "f" 1 "disk full" "io: ENOSPC"
      (some "k1") (some "p/")).2.1 "k1").mpr rfl⟩

/-- C4: identity setting is last-writer-wins: jwt("u1") then token("t1")
leaves exactly the Token claim (same state as a single token call, JWT claim
fully discarded), and any sequence of identity-setting calls ends in the
state determined by its last call alone, from any starting scope. -/
theorem identity_last_writer_wins (u t : String) (s s' : Scope)
    (cs : List IdentityCall) (c : IdentityCall) :
    set_user_from_token t (set_user_from_jwt u s)
        = { user := some { id := some t
                           other := [(AUTH_TYPE_PROPERTY, Value.str "token")] } } ∧
    set_user_from_token t (set_user_from_jwt u s) = set_user_from_token t s ∧
    applyCalls (cs ++ [c]) s = applyCall c s' := by
  refine ⟨rfl, rfl, ?_⟩
  induction cs generalizing s with
  | nil => cases c <;> rfl
  | cons head tail ih => exact ih (applyCall head s)

/-- C5: `init` with an absent DSN installs only the plain local logger
(whose default filter is "info" unless the environment overrides it), emits
the warning that remote reporting is disabled, and returns no guard. -/
theorem init_without_dsn (crate_name : String) (rate : Option Rat) (en : Bool) :
    init crate_name none rate en
        = InitResult.ok none
            { sentry_logger_installed := none
              env_logger_installed := true
              sentry_inited := none
              info_logs := []
              warn_logs := ["Could not initialize Sentry integration"] } ∧
    mk_log_builder none = "info" :=
  ⟨rfl, rfl⟩

/-- C6: `init` with a present DSN (and an enabled client) installs the
router-wired logger closed over the crate name, initializes Sentry with
send_default_pii, attach_stacktrace and debug all true and the sample rate
equal to the caller's value or 0 when unset, logs the informational
confirmation, and returns the guard. -/
theorem init_with_dsn (crate_name dsn : String) (rate : Option Rat) :
    init crate_name (some dsn) rate true
        = InitResult.ok
            (some (dsn, { send_default_pii := true
                          attach_stacktrace := true
                          debug := true
                          traces_sample_rate := rate.getD 0 }))
            { sentry_logger_installed := some crate_name
              env_logger_installed := false
              sentry_inited := some (dsn, { send_default_pii := true
                                            attach_stacktrace := true
                                            debug := true
                                            traces_sample_rate := rate.getD 0 })
              info_logs := ["Sentry integration initialized"]
              warn_logs := [] } ∧
    (init_sentry_logger crate_name).filter = classify crate_name :=
  ⟨rfl, rfl⟩

/-- C7: if the constructed client reports itself not enabled, `init` hits
the `unreachable!()` panic and never returns (so no recoverable error
value exists), and with an enabled client the panic branch is unreachable. -/
theorem init_disabled_panics (crate_name dsn : String) (rate : Option Rat) :
    init crate_name (some dsn) rate false
        = InitResult.panicUnreachable
            { sentry_logger_installed := some crate_name
              env_logger_installed := false
              sentry_inited := some (dsn, { send_default_pii := true
                                            attach_stacktrace := true
                                            debug := true
                                            traces_sample_rate := rate.getD 0 })
              info_logs := []
              warn_logs := [] } ∧
    (∀ guard effects, init crate_name (some dsn) rate false ≠ InitResult.ok guard effects) ∧
    (∀ effects, init crate_name (some dsn) rate true ≠ InitResult.panicUnreachable effects) := by
  refine ⟨rfl, ?_, ?_⟩ <;> intro _ <;> simp [init]

/-- Concrete instance: with a DSN and a disabled client, `init` panics. -/
theorem init_disabled_panics_witness :
    init "hook0" (some "d") none false
        = InitResult.panicUnreachable
            { sentry_logger_installed := some "hook0"
              env_logger_installed := false
              sentry_inited := some ("d", { send_default_pii := true
                                            attach_stacktrace := true
                                            debug := true
                                            traces_sample_rate := 0 })
              info_logs := []
              warn_logs := [] } :=
  (init_disabled_panics "hook0" "d" none).1

/-- C8: each identity setter stores the given subject identifier as the
user's id and attaches exactly the single `auth_type` attribute with value
"jwt" / "application_secret" / "token" respectively. -/
theorem identity_setters_auth_type (id : String) (s : Scope) :
    (set_user_from_jwt id s).user
        = some { id := some id, other := [(AUTH_TYPE_PROPERTY, Value.str "jwt")] } ∧
    (set_user_from_application_secret id s).user
        = some { id := some id, other := [(AUTH_TYPE_PROPERTY, Value.str "application_secret")] } ∧
    (set_user_from_token id s).user
        = some { id := some id, other := [(AUTH_TYPE_PROPERTY, Value.str "token")] } ∧
    AUTH_TYPE_PROPERTY = "auth_type" :=
  ⟨rfl, rfl, rfl, rfl⟩

/-- C9: `set_user_from_token` is idempotent: a second identical call leaves
the scope exactly as after the first. -/
theorem set_user_from_token_idempotent (x : String) (s : Scope) :
    set_user_from_token x (set_user_from_token x s) = set_user_from_token x s :=
  rfl

/-- C10: the error chain is always attached to the transient remote scope
as the string-valued extra "error_chain" (for every input, also appearing
as the last part of the local detail line), and when both optional
attributes are absent it is the only extra. -/
theorem report_error_chain_always_in_scope (mp f : String) (ln : Nat) (m e : String)
    (object_key pfx : Option String) :
    ("error_chain", Value.str e)
        ∈ (log_object_storage_error_with_context mp f ln m e object_key pfx).scope_extras ∧
    (log_object_storage_error_with_context mp f ln m e none none).scope_extras
        = [("error_chain", Value.str e)] := by
  constructor
  · cases object_key <;> cases pfx <;> exact List.mem_cons_self _ _
  · rfl

end SentryIntegration
